import Mathlib

/-!
Shallow embedding of the Degen-Scraper resilient collection pipeline.

The definitions below are translated from the JavaScript sources:
the record normalizer `processTweetData`, the rate limit controller
`handleRateLimit`, the primary collection loop `collectTweets`, the
browser fallback collector `collectWithFallback`, the analytics
computation `generateAnalytics` of DataOrganizer, and the capped ranked
merge `createMergedCharacter` together with the CLI wiring of
merge_characters.js.

JavaScript numbers are modelled as `JSNum` (NaN, the two infinities, or
a finite rational); absent fields are modelled with `Option`; JS `Map`
and `Set` are modelled as insertion ordered lists with the exact JS
update semantics (overwrite in place for `Map.set`, SameValueZero
membership for `Set.has`).
-/

/-- JavaScript number: NaN, an infinity, or a finite value (modelled as a rational;
every IEEE double that is not NaN or infinite is a rational). -/
inductive JSNum where
  | nan : JSNum
  | posInf : JSNum
  | negInf : JSNum
  | num : ℚ → JSNum
  deriving DecidableEq, Repr

/-- JavaScript falsiness of a possibly absent numeric value: `undefined`, `NaN`
and `0` are falsy; every other number is truthy. -/
def jsFalsyNum : Option JSNum → Bool
  | none => true
  | some JSNum.nan => true
  | some (JSNum.num q) => decide (q = 0)
  | some _ => false

/-- JavaScript `isNaN` on a number. -/
def jsIsNaN : JSNum → Bool
  | JSNum.nan => true
  | _ => false

/-- JavaScript comparison `v < c` against a finite constant `c`:
false for NaN and positive infinity, true for negative infinity. -/
def jsLtC : JSNum → ℚ → Bool
  | JSNum.nan, _ => false
  | JSNum.posInf, _ => false
  | JSNum.negInf, _ => true
  | JSNum.num q, c => decide (q < c)

/-- JavaScript comparison `v <= 0`: false for NaN and positive infinity,
true for negative infinity. -/
def jsLeZero : JSNum → Bool
  | JSNum.nan => false
  | JSNum.posInf => false
  | JSNum.negInf => true
  | JSNum.num q => decide (q ≤ 0)

/-- JavaScript multiplication of a number by a positive finite constant. -/
def jsMulC : JSNum → ℚ → JSNum
  | JSNum.nan, _ => JSNum.nan
  | JSNum.posInf, _ => JSNum.posInf
  | JSNum.negInf, _ => JSNum.negInf
  | JSNum.num q, c => JSNum.num (q * c)

/-- JavaScript truthiness of a possibly absent string: `undefined` and the
empty string are falsy. -/
def jsTruthyStr : Option String → Bool
  | none => false
  | some s => decide (¬ (s = ""))

/-- Truncation of a rational toward zero, as ToIntegerOrInfinity applied to a
finite argument in the `Date` constructor. -/
def jsTrunc (q : ℚ) : Int := Int.tdiv q.num (q.den : Int)

/-- Civil calendar date (year, month, day) from a count of days since the Unix
epoch, following the standard days-from-civil inverse algorithm with
truncating integer division, as performed by the proleptic Gregorian
calendar of JavaScript `Date`. -/
def civilFromDays (z0 : Int) : Int × Int × Int :=
  let z := z0 + 719468
  let era : Int := (if 0 ≤ z then z else z - 146096).tdiv 146097
  let doe : Int := z - era * 146097
  let yoe : Int := (doe - doe.tdiv 1460 + doe.tdiv 36524 - doe.tdiv 146096).tdiv 365
  let y : Int := yoe + era * 400
  let doy : Int := doe - (365 * yoe + yoe.tdiv 4 - yoe.tdiv 100)
  let mp : Int := (5 * doy + 2).tdiv 153
  let d : Int := doy - (153 * mp + 2).tdiv 5 + 1
  let m : Int := mp + (if mp < 10 then 3 else -9)
  (y + (if m ≤ 2 then 1 else 0), m, d)

/-- Decimal rendering of a natural number left padded with zeros to width `w`. -/
def padNat (w : ℕ) (n : ℕ) : String :=
  let s := toString n
  if s.length < w then String.mk (List.replicate (w - s.length) '0') ++ s else s

/-- Decimal rendering of an integer, zero padded to width `w` (negative values
carry a leading minus sign; the claims never exercise negative years). -/
def padInt (w : ℕ) (n : Int) : String :=
  if n < 0 then "-" ++ padNat w n.natAbs else padNat w n.natAbs

/-- Calendar date string `yyyy-MM-dd` of an epoch millisecond value, as produced
by the date-fns `format` call on `new Date(ms)`. The JS call formats in the
local time zone; the model assumes a UTC environment. -/
def formatYMD (ms : ℚ) : String :=
  let days := (jsTrunc ms).fdiv 86400000
  let c := civilFromDays days
  padInt 4 c.1 ++ "-" ++ padInt 2 c.2.1 ++ "-" ++ padInt 2 c.2.2

/-- JavaScript `new Date(ms).toISOString()` for a finite millisecond value whose
truncation lies inside the valid `Date` range. -/
def toISOString (ms : ℚ) : String :=
  let msI := jsTrunc ms
  let days := msI.fdiv 86400000
  let rem := (msI - days * 86400000).toNat
  let c := civilFromDays days
  padInt 4 c.1 ++ "-" ++ padInt 2 c.2.1 ++ "-" ++ padInt 2 c.2.2 ++
    "T" ++ padNat 2 (rem / 3600000) ++ ":" ++ padNat 2 (rem / 60000 % 60) ++
    ":" ++ padNat 2 (rem / 1000 % 60) ++ "." ++ padNat 3 (rem % 1000) ++ "Z"

/-- Raw record delivered by the search capability, as consumed by
`processTweetData`: every field the function reads, each optional exactly
where the source tolerates absence. `timeParsedMs` stands for
`tweet.timeParsed?.getTime()` (absent when `timeParsed` is absent, NaN when
the parsed date is invalid). Count fields absent in the raw record behave
exactly like 0 under the `|| 0` defaults and are modelled as naturals;
list fields absent behave exactly like `[]` under the `|| []` defaults. -/
structure RawTweet where
  id : Option String
  text : String
  username : Option String
  timestamp : Option JSNum
  timeParsedMs : Option JSNum
  isReply : Bool
  isRetweet : Bool
  likes : ℕ
  retweets : ℕ
  replies : ℕ
  photos : List String
  videos : List String
  urls : List String
  hashtags : List String
  permanentUrl : Option String
  quotedStatusId : Option String
  inReplyToStatusId : Option String
  deriving DecidableEq, Repr

/-- Raw record with every field absent or empty, a base for concrete examples. -/
def emptyRaw : RawTweet :=
  { id := none, text := "", username := none, timestamp := none,
    timeParsedMs := none, isReply := false, isRetweet := false,
    likes := 0, retweets := 0, replies := 0,
    photos := [], videos := [], urls := [], hashtags := [],
    permanentUrl := none, quotedStatusId := none, inReplyToStatusId := none }

/-- Canonical Tweet entity produced by the normalizer and stored in the
persisted datasets. `timestamp` is `Option` because persisted records are
reloaded from JSON where the field may be `null` (generateAnalytics filters
on `t.timestamp !== null`); the normalizer always produces `some`. -/
structure Tweet where
  id : String
  text : String
  username : String
  timestamp : Option ℚ
  createdAt : String
  isReply : Bool
  isRetweet : Bool
  likes : ℕ
  retweetCount : ℕ
  replies : ℕ
  photos : List String
  videos : List String
  urls : List String
  hashtags : List String
  permanentUrl : Option String
  quotedStatusId : Option String
  inReplyToStatusId : Option String
  deriving DecidableEq, Repr

/-- Timestamp resolution of `processTweetData` (TwitterPipeline.js lines 335
to 347): take the numeric `timestamp` field, fall back to the parsed date
when it is falsy, reject when the substituted value is falsy, scale values
below 1e12 by 1000, and reject when the scaled value is NaN or not positive.
A surviving non-finite or out of Date range value makes the later
`new Date(timestamp).toISOString()` throw, which the try catch of
`processTweetData` turns into a rejection, so those values resolve to
`none` here as well (the valid Date range is 8.64e15 milliseconds around
the epoch). -/
def substitutedTimestamp (timestamp timeParsedMs : Option JSNum) : Option JSNum :=
  if jsFalsyNum timestamp then timeParsedMs else timestamp

/-- Seconds to milliseconds heuristic of `processTweetData` (line 342): a value
below 1e12 is scaled by 1000. -/
def scaleTimestamp (v : JSNum) : JSNum :=
  if jsLtC v 1000000000000 then jsMulC v 1000 else v

/-- Full timestamp resolution: substitution, falsiness rejection, scaling, and
the NaN, non positive and invalid Date rejections described above. -/
def resolveTimestamp (timestamp timeParsedMs : Option JSNum) : Option ℚ :=
  let ts := substitutedTimestamp timestamp timeParsedMs
  if jsFalsyNum ts then none
  else
    match ts with
    | none => none
    | some v =>
      let scaled := scaleTimestamp v
      if jsIsNaN scaled || jsLeZero scaled then none
      else
        match scaled with
        | JSNum.num q =>
          if (jsTrunc q).natAbs ≤ 8640000000000000 then some q else none
        | _ => none

/-- Record normalizer `processTweetData` (TwitterPipeline.js lines 331 to 386).
Rejects a null record, a record with falsy id, and a record whose timestamp
does not resolve (see `resolveTimestamp`). On success it builds the
canonical Tweet with the `|| 0` and `|| []` defaults of the source. The
update of the oldest and newest tweet date statistics in the middle of the
source function does not affect the returned record and is kept out of this
pure model. -/
def processTweetData (selfUsername : String) (tw : Option RawTweet) : Option Tweet :=
  match tw with
  | none => none
  | some tweet =>
    if ¬ jsTruthyStr tweet.id then none
    else
      match resolveTimestamp tweet.timestamp tweet.timeParsedMs with
      | none => none
      | some ts =>
        some {
          id := tweet.id.getD (""),
          text := tweet.text,
          username := if jsTruthyStr tweet.username
                      then tweet.username.getD ("") else selfUsername,
          timestamp := some ts,
          createdAt := toISOString ts,
          isReply := tweet.isReply,
          isRetweet := tweet.isRetweet,
          likes := tweet.likes,
          retweetCount := tweet.retweets,
          replies := tweet.replies,
          photos := tweet.photos,
          videos := tweet.videos,
          urls := tweet.urls,
          hashtags := tweet.hashtags,
          permanentUrl := tweet.permanentUrl,
          quotedStatusId := tweet.quotedStatusId,
          inReplyToStatusId := tweet.inReplyToStatusId }

/-- JavaScript `Map.set` on an insertion ordered association list: overwrite the
first (for a map built only through this operation, the unique) entry with
the key in place, otherwise append at the end. -/
def jsMapSet : List (String × Tweet) → String → Tweet → List (String × Tweet)
  | [], k, v => [(k, v)]
  | (k0, v0) :: rest, k, v =>
    if k0 = k then (k, v) :: rest else (k0, v0) :: jsMapSet rest k v

/-- JavaScript `Map.has`. -/
def jsMapHas (m : List (String × Tweet)) (k : String) : Bool :=
  m.any (fun p => p.1 == k)

/-- JavaScript `Map.get`. -/
def jsMapGet (m : List (String × Tweet)) (k : String) : Option Tweet :=
  (m.find? (fun p => p.1 == k)).map Prod.snd

/-- JavaScript `Map.values` as a list in insertion order. -/
def jsMapValues (m : List (String × Tweet)) : List Tweet := m.map Prod.snd

/-- Guard `allTweets.has(tweet.id)` of the `for await` loop of collectTweets:
an absent id is never present (`Map.has(undefined)` is false on this map). -/
def rawIdPresent (m : List (String × Tweet)) (oid : Option String) : Bool :=
  match oid with
  | some k => jsMapHas m k
  | none => false

/-- One iteration of the `for await` loop of collectTweets (TwitterPipeline.js
lines 520 to 537): skip a null record or an id already present, normalize,
then insert, subject to the optional inclusive date range (both bounds given
as epoch milliseconds of the parsed date flags; filtering only applies when
both flags are present, as in the source). -/
def collectStep (selfUsername : String) (dateRange : Option (Int × Int))
    (m : List (String × Tweet)) (raw : Option RawTweet) : List (String × Tweet) :=
  match raw with
  | none => m
  | some tweet =>
    if rawIdPresent m tweet.id then m
    else
      match processTweetData selfUsername (some tweet) with
      | none => m
      | some pt =>
        match dateRange with
        | some (s, e) =>
          if s ≤ jsTrunc (pt.timestamp.getD 0) ∧ jsTrunc (pt.timestamp.getD 0) ≤ e
          then jsMapSet m pt.id pt else m
        | none => jsMapSet m pt.id pt

/-- Primary collection loop collectTweets (lines 507 to 541): the lazy search
sequence, here materialized as a list of possibly null raw records, is
consumed in full by the `for await` loop and the values of the dedup Map are
returned. The source declares `stagnantBatches` and
`MAX_STAGNANT_BATCHES = 2` before the loop but the loop body never reads or
updates them. -/
def collectTweets (selfUsername : String) (dateRange : Option (Int × Int))
    (raws : List (Option RawTweet)) : List Tweet :=
  jsMapValues (raws.foldl (collectStep selfUsername dateRange) [])

/-- Running statistics of a collection session (the stats object of
TwitterPipeline), restricted to the counters the verified operations
touch. -/
structure Stats where
  requestCount : ℕ
  rateLimitHits : ℕ
  retriesCount : ℕ
  uniqueTweets : ℕ
  fallbackCount : ℕ
  deriving DecidableEq, Repr

/-- Fresh statistics record. -/
def initStats : Stats :=
  { requestCount := 0, rateLimitHits := 0, retriesCount := 0,
    uniqueTweets := 0, fallbackCount := 0 }

/-- Rate limit controller handleRateLimit (TwitterPipeline.js lines 312 to
329). `rand` is the value drawn from Math.random(), a number in [0, 1).
Returns the updated statistics and the computed delay in milliseconds; the
subsequent randomized sleep between `delay` and `1.1 * delay` is an awaited
side effect outside the computed value. -/
def handleRateLimit (retryCount : ℕ) (rand : ℚ) (stats : Stats) : Stats × ℚ :=
  let stats2 := { stats with rateLimitHits := stats.rateLimitHits + 1 }
  let baseDelay : ℚ := 60000
  let maxDelay : ℚ := 15 * 60 * 1000
  let exponentialDelay : ℚ := baseDelay * 2 ^ (retryCount - 1)
  let jitter : ℚ := rand * (1 / 10) * exponentialDelay
  let delay : ℚ := min (exponentialDelay + jitter) maxDelay
  (stats2, delay)

/-- Post element scraped in the page by collectWithFallback: id attribute
(null when missing), text, raw datetime string and engagement count texts. -/
structure ScrapedTweet where
  id : Option String
  text : String
  timestamp : Option String
  metrics : List String
  deriving DecidableEq, Repr

/-- JavaScript value stored in the fallback Set: a string or an object
reference; objects compare by identity. -/
inductive JSVal where
  | str : String → JSVal
  | objRef : ℕ → JSVal
  deriving DecidableEq, Repr

/-- SameValueZero equality used by JavaScript Set membership: strings compare
by content, object references by identity, and a string never equals an
object. -/
def sameValueZero : JSVal → JSVal → Bool
  | JSVal.str a, JSVal.str b => a == b
  | JSVal.objRef a, JSVal.objRef b => a == b
  | _, _ => false

/-- JavaScript `Set.has` under SameValueZero. -/
def jsSetHas (s : List JSVal) (v : JSVal) : Bool :=
  s.any (fun w => sameValueZero w v)

/-- JavaScript `Set.add` under SameValueZero, keeping insertion order. -/
def jsSetAdd (s : List JSVal) (v : JSVal) : List JSVal :=
  if jsSetHas s v then s else s ++ [v]

/-- State of one fallback collection session: the `tweets` Set in insertion
order, the heap resolving object references to scraped records, and the
running statistics. -/
structure FallbackState where
  tweets : List JSVal
  heap : List ScrapedTweet
  stats : Stats
  deriving DecidableEq, Repr

/-- Fresh fallback session state. -/
def initFallbackState : FallbackState :=
  { tweets := [], heap := [], stats := initStats }

/-- Body of the `for (const tweet of newTweets)` loop of collectWithFallback
(lines 463 to 468). Each scraped element is a fresh object; the guard
`tweets.has(tweet.id)` asks the Set of objects for the id string, and the
added value is the object itself. -/
def scrapeStep (st : FallbackState) (t : ScrapedTweet) : FallbackState :=
  if jsSetHas st.tweets (JSVal.str (t.id.getD (""))) then st
  else
    { tweets := jsSetAdd st.tweets (JSVal.objRef st.heap.length),
      heap := st.heap ++ [t],
      stats := { st.stats with fallbackCount := st.stats.fallbackCount + 1 } }

/-- One scroll and scrape cycle: the page evaluation keeps the elements with a
truthy id, each of which is offered to the Set. -/
def scrapeCycle (st : FallbackState) (visible : List ScrapedTweet) : FallbackState :=
  (visible.filter (fun t => jsTruthyStr t.id)).foldl scrapeStep st

/-- The while loop of collectWithFallback (lines 429 to 476): repeat cycles
while fewer than three consecutive cycles have left the Set size unchanged.
`cycles` lists what each successive scrape would see; the session duration
bound is a wall clock condition modelled by the list running out. -/
def fallbackLoop : List (List ScrapedTweet) → FallbackState → ℕ → ℕ → FallbackState
  | [], st, _, _ => st
  | c :: rest, st, unchangedCount, lastTweetCount =>
    if 3 ≤ unchangedCount then st
    else
      let st2 := scrapeCycle st c
      if st2.tweets.length = lastTweetCount
      then fallbackLoop rest st2 (unchangedCount + 1) lastTweetCount
      else fallbackLoop rest st2 0 st2.tweets.length

/-- Fallback collector collectWithFallback (lines 388 to 487) restricted to its
accumulating collection. -/
def collectWithFallback (cycles : List (List ScrapedTweet)) : FallbackState :=
  fallbackLoop cycles initFallbackState 0 0

/-- Records reachable from the fallback Set, each stored value resolved through
the heap (string members, which never occur, resolve to nothing). -/
def storedFallbackTweets (st : FallbackState) : List ScrapedTweet :=
  st.tweets.filterMap (fun v => match v with
    | JSVal.objRef n => st.heap.get? n
    | JSVal.str _ => none)

/-- Entry of the top tweets list of the analytics snapshot. -/
structure TopTweet where
  id : String
  text : String
  likes : ℕ
  retweetCount : ℕ
  url : Option String
  deriving DecidableEq, Repr

/-- Engagement block of the analytics snapshot. -/
structure Engagement where
  totalLikes : ℕ
  totalRetweetCount : ℕ
  totalReplies : ℕ
  averageLikes : String
  topTweets : List TopTweet
  deriving DecidableEq, Repr

/-- Time range block of the analytics snapshot. -/
structure TimeRange where
  start : String
  «end» : String
  deriving DecidableEq, Repr

/-- Content type counts of the analytics snapshot. -/
structure ContentTypes where
  withImages : ℕ
  withVideos : ℕ
  withLinks : ℕ
  textOnly : ℕ
  deriving DecidableEq, Repr

/-- Analytics snapshot produced by generateAnalytics. -/
structure Analytics where
  totalTweets : ℕ
  directTweets : ℕ
  replies : ℕ
  retweets : ℕ
  engagement : Engagement
  timeRange : TimeRange
  contentTypes : ContentTypes
  deriving DecidableEq, Repr

/-- JavaScript division of finite values: division by zero gives NaN for a zero
numerator and a signed infinity otherwise. -/
def jsDiv (a b : ℚ) : JSNum :=
  if b = 0 then
    if a = 0 then JSNum.nan else if 0 < a then JSNum.posInf else JSNum.negInf
  else JSNum.num (a / b)

/-- JavaScript `toFixed(2)`: NaN renders as the string NaN, infinities by name,
and a finite value is rounded to the nearest hundredth with ties toward the
larger result (numbers of magnitude at least 1e21 fall back to exponential
rendering in JS; no analytics average reaches that). -/
def toFixed2 : JSNum → String
  | JSNum.nan => "NaN"
  | JSNum.posInf => "Infinity"
  | JSNum.negInf => "-Infinity"
  | JSNum.num q =>
    let n : Int := Rat.floor (q * 100 + 1 / 2)
    let sgn := if n < 0 then "-" else ""
    sgn ++ toString (n.natAbs / 100) ++ "." ++ padNat 2 (n.natAbs % 100)

/-- Analytics zero state returned for an empty tweet list (DataOrganizer.js
lines 155 to 180). -/
def emptyAnalytics : Analytics :=
  { totalTweets := 0, directTweets := 0, replies := 0, retweets := 0,
    engagement := { totalLikes := 0, totalRetweetCount := 0, totalReplies := 0,
                    averageLikes := "0.00", topTweets := [] },
    timeRange := { start := "N/A", «end» := "N/A" },
    contentTypes := { withImages := 0, withVideos := 0, withLinks := 0,
                      textOnly := 0 } }

/-- generateAnalytics (DataOrganizer.js lines 154 to 247). Engagement is
computed over the non retweet tweets only; the average divides by the length
of that sublist with JS division; the time range takes the least and
greatest non null timestamps. JS Array sort is stable (V8 TimSort) and a
stable sort with respect to a total preorder is unique, so both sort calls
are modelled by the stable insertionSort. Text truncation to 100 UTF-16
units is modelled as truncation to 100 characters. -/
def generateAnalytics (tweets : List Tweet) : Analytics :=
  if tweets.length = 0 then emptyAnalytics
  else
    let validTweets := tweets.filter (fun t => t.timestamp.isSome)
    let validDates := List.insertionSort (fun a b : ℚ => a ≤ b)
      (validTweets.filterMap Tweet.timestamp)
    let tweetsForEngagement := tweets.filter (fun t => !t.isRetweet)
    { totalTweets := tweets.length,
      directTweets := (tweets.filter (fun t => !t.isReply && !t.isRetweet)).length,
      replies := (tweets.filter (fun t => t.isReply)).length,
      retweets := (tweets.filter (fun t => t.isRetweet)).length,
      engagement :=
        { totalLikes := (tweetsForEngagement.map Tweet.likes).sum,
          totalRetweetCount := (tweetsForEngagement.map Tweet.retweetCount).sum,
          totalReplies := (tweetsForEngagement.map Tweet.replies).sum,
          averageLikes := toFixed2 (jsDiv
            (((tweetsForEngagement.map Tweet.likes).sum : ℚ))
            ((tweetsForEngagement.length : ℚ))),
          topTweets := ((List.insertionSort
              (fun a b : Tweet => b.likes ≤ a.likes) tweetsForEngagement).take 5).map
            (fun t => { id := t.id, text := t.text.take 100, likes := t.likes,
                        retweetCount := t.retweetCount,
                        url := t.permanentUrl }) },
      timeRange :=
        { start := match validDates.head? with
            | some d => formatYMD d
            | none => "N/A",
          «end» := match validDates.getLast? with
            | some d => formatYMD d
            | none => "N/A" },
      contentTypes :=
        { withImages := (tweets.filter (fun t => decide (0 < t.photos.length))).length,
          withVideos := (tweets.filter (fun t => decide (0 < t.videos.length))).length,
          withLinks := (tweets.filter (fun t => decide (0 < t.urls.length))).length,
          textOnly := (tweets.filter (fun t =>
            t.photos.length = 0 ∧ t.videos.length = 0 ∧ t.urls.length = 0)).length } }

/-- Options of createMergedCharacter, with source defaults 50, true and the
string total. `sortBy` stays a string because the switch in the source
matches raw strings and falls back to total engagement for any unknown
value. -/
structure MergeOptions where
  tweetsPerAccount : ℕ
  filterRetweets : Bool
  sortBy : String
  deriving DecidableEq, Repr

/-- Rank key of the chosen sorting mode: the comparator of
createMergedCharacter (lines 887 to 899) sorts descending in this key. The
recency key reads the timestamp as a Date (a null timestamp coerces to
epoch 0 in the Date constructor). -/
def rankKey (sortBy : String) (t : Tweet) : ℚ :=
  if sortBy = "likes" then (t.likes : ℚ)
  else if sortBy = "retweets" then (t.retweetCount : ℚ)
  else if sortBy = "date" then ((jsTrunc (t.timestamp.getD 0)) : ℚ)
  else ((t.likes : ℚ) + (t.retweetCount : ℚ))

/-- Eligible tweets of one source account: the optional retweet drop of
createMergedCharacter (lines 882 to 885). -/
def eligibleTweets (opts : MergeOptions) (tweets : List Tweet) : List Tweet :=
  if opts.filterRetweets then tweets.filter (fun t => !t.isRetweet) else tweets

/-- Per account selection of createMergedCharacter (lines 881 to 901): drop
retweets when configured, sort descending in the rank key with the stable JS
array sort (modelled by the stable insertionSort), take the top
`tweetsPerAccount`. -/
def selectTopTweets (opts : MergeOptions) (tweets : List Tweet) : List Tweet :=
  (List.insertionSort
    (fun a b : Tweet => rankKey opts.sortBy b ≤ rankKey opts.sortBy a)
    (eligibleTweets opts tweets)).take opts.tweetsPerAccount

/-- Union step of createMergedCharacter (lines 904 to 916): every selected
tweet is written into the merged Map with an unconditional set. -/
def mergeIntoMap (m : List (String × Tweet)) (sel : List Tweet) :
    List (String × Tweet) :=
  sel.foldl (fun m t => jsMapSet m t.id t) m

/-- createMergedCharacter (TwitterPipeline.js lines 845 to 989) restricted to
its data computation: per account selection followed by the union into one
Map, the source accounts processed in input order. The persisted artifacts
and recomputed stats consume this map downstream. -/
def createMergedCharacter (accounts : List (List Tweet)) (opts : MergeOptions) :
    List (String × Tweet) :=
  accounts.foldl (fun m acc => mergeIntoMap m (selectTopTweets opts acc)) []

/-- Full union merge mergeCharacters (lines 590 to 697) restricted to the Map
content: the primary account tweets are inserted unconditionally, then each
other account inserts a tweet only when its id is not yet present. -/
def mergeCharacters (primary : List Tweet) (others : List (List Tweet)) :
    List (String × Tweet) :=
  let m0 := primary.foldl (fun m t => jsMapSet m t.id t) []
  others.foldl (fun m acc =>
    acc.foldl (fun m t => if jsMapHas m t.id then m else jsMapSet m t.id t) m) m0

/-- Answers of the interactive merge prompt of merge_characters.js. -/
structure MergeAnswers where
  tweetsPerAccount : ℕ
  excludeRetweets : Bool
  rankingMethod : String
  deriving DecidableEq, Repr

/-- Option wiring of merge_characters.js main (lines 72 to 76); the negation in
`filterRetweets := !a.excludeRetweets` is exactly as written in the
source. -/
def mergeOptionsOfAnswers (a : MergeAnswers) : MergeOptions :=
  { tweetsPerAccount := a.tweetsPerAccount,
    filterRetweets := !a.excludeRetweets,
    sortBy := a.rankingMethod }

/-- Rejection conditions of claim C1, phrased on the raw record: no identifier,
no timestamp field of either kind, or a substituted timestamp whose scaled
value is NaN or not positive. -/
def badRecord (r : RawTweet) : Prop :=
  jsTruthyStr r.id = false
  ∨ (r.timestamp = none ∧ r.timeParsedMs = none)
  ∨ (∃ v, substitutedTimestamp r.timestamp r.timeParsedMs = some v ∧
      (jsIsNaN (scaleTimestamp v) = true ∨ jsLeZero (scaleTimestamp v) = true))

/-- Raw record with a valid id and a millisecond timestamp, a concrete input
for the collection loop. -/
def freshRaw : RawTweet :=
  { emptyRaw with
    id := some "42", text := "hello",
    timestamp := some (JSNum.num 1700000000000) }

/-- Scraped post element used in concrete fallback runs. -/
def visiblePost : ScrapedTweet :=
  { id := some "1", text := "copied text",
    timestamp := some "2024-01-01T00:00:00.000Z", metrics := [] }

/-- Canonical tweet with neutral fields, a base for concrete examples. -/
def baseTweet : Tweet :=
  { id := "0", text := "", username := "u", timestamp := none, createdAt := "",
    isReply := false, isRetweet := false, likes := 0, retweetCount := 0,
    replies := 0, photos := [], videos := [], urls := [], hashtags := [],
    permanentUrl := none, quotedStatusId := none, inReplyToStatusId := none }

/-- Concrete retweet with the top engagement of its account. -/
def topRetweet : Tweet := { baseTweet with id := "9", isRetweet := true, likes := 5 }

/-- Concrete tweet contributed by a first account. -/
def tweetA : Tweet := { baseTweet with id := "1", text := "from account one" }

/-- Concrete tweet with the same id contributed by a second account. -/
def tweetB : Tweet := { baseTweet with id := "1", text := "from account two" }

/-- Merge options with the source defaults of createMergedCharacter. -/
def defaultMergeOptions : MergeOptions :=
  { tweetsPerAccount := 50, filterRetweets := true, sortBy := "total" }

/-- Merge options with a per account cap of one, for concrete witnesses. -/
def capOneOptions : MergeOptions :=
  { tweetsPerAccount := 1, filterRetweets := true, sortBy := "likes" }

/-- Prompt answers asking the merge to exclude retweets. -/
def excludeAnswers : MergeAnswers :=
  { tweetsPerAccount := 1, excludeRetweets := true,
    rankingMethod := "Total engagement (likes + retweets)" }

/-- Evaluation of the timestamp resolution on a present positive finite
numeric timestamp with no parsed date: only the scaling choice and the Date
range guard remain. -/
theorem resolveTimestamp_num_eval (x : ℚ) (hx : 0 < x) :
    resolveTimestamp (some (JSNum.num x)) none =
      if (jsTrunc (if x < 1000000000000 then x * 1000 else x)).natAbs ≤
          8640000000000000
      then some (if x < 1000000000000 then x * 1000 else x) else none := by
  have hx0 : ¬ x = 0 := ne_of_gt hx
  by_cases hlt : x < 1000000000000
  · have hpos : ¬ (x * 1000 ≤ 0) := by nlinarith
    simp [resolveTimestamp, substitutedTimestamp, scaleTimestamp, jsFalsyNum,
      jsLtC, jsMulC, jsIsNaN, jsLeZero, hx0, hlt, hpos]
  · have hpos : ¬ (x ≤ 0) := not_le.mpr hx
    simp [resolveTimestamp, substitutedTimestamp, scaleTimestamp, jsFalsyNum,
      jsLtC, jsMulC, jsIsNaN, jsLeZero, hx0, hlt, hpos]

/-- Truncation of a natural number cast into the rationals is the same number
as an integer. -/
theorem jsTrunc_natCast (n : ℕ) : jsTrunc (n : ℚ) = (n : ℤ) := by
  simp [jsTrunc, Rat.num_natCast, Rat.den_natCast]

/-- Evaluation of the timestamp resolution on natural number inputs, stated
over naturals so that the side conditions are decidable arithmetic. -/
theorem resolveTimestamp_eval_nat (a b : ℕ) (ha : 0 < a)
    (hcase : (a < 1000000000000 ∧ b = a * 1000) ∨ (1000000000000 ≤ a ∧ b = a))
    (hbound : b ≤ 8640000000000000) :
    resolveTimestamp (some (JSNum.num (a : ℚ))) none = some (b : ℚ) := by
  have haq : (0 : ℚ) < (a : ℚ) := by exact_mod_cast ha
  rw [resolveTimestamp_num_eval (a : ℚ) haq]
  have hval : (if (a : ℚ) < 1000000000000 then (a : ℚ) * 1000 else (a : ℚ)) =
      (b : ℚ) := by
    rcases hcase with ⟨hlt, hb⟩ | ⟨hge, hb⟩
    · rw [if_pos (by exact_mod_cast hlt)]
      subst hb
      push_cast
      ring
    · rw [if_neg (not_lt.mpr (by exact_mod_cast hge))]
      subst hb
      rfl
  rw [hval, jsTrunc_natCast]
  simp [hbound]

/-- Claim C2, counterexample: the timestamp normalization is not idempotent on
every input. The raw timestamp 5 resolves to 5000 milliseconds, and feeding
that produced millisecond value back into the resolution scales it a second
time, to 5000000. -/
theorem resolveTimestamp_rescales_small_output :
    resolveTimestamp (some (JSNum.num 5)) none = some 5000 ∧
    resolveTimestamp (some (JSNum.num 5000)) none = some 5000000 ∧
    (5000000 : ℚ) ≠ 5000 := by
  have h1 := resolveTimestamp_eval_nat 5 5000 (by norm_num)
    (Or.inl (by norm_num)) (by norm_num)
  have h2 := resolveTimestamp_eval_nat 5000 5000000 (by norm_num)
    (Or.inl (by norm_num)) (by norm_num)
  push_cast at h1 h2
  exact ⟨h1, h2, by norm_num⟩

/-- Claim C2, amended: for every timestamp input t of at least 1e9 (so that the
scaled value reaches 1e12), normalization is idempotent: resolving the
millisecond value produced by a first resolution yields the same millisecond
value, the seconds heuristic firing at most once. -/
theorem resolveTimestamp_idempotent_of_ge_1e9 (t q : ℚ) (ht : 10 ^ 9 ≤ t)
    (hres : resolveTimestamp (some (JSNum.num t)) none = some q) :
    resolveTimestamp (some (JSNum.num q)) none = some q := by
  have htpos : (0 : ℚ) < t := lt_of_lt_of_le (by norm_num) ht
  have ht9 : (1000000000 : ℚ) ≤ t := by
    calc (1000000000 : ℚ) = 10 ^ 9 := by norm_num
    _ ≤ t := ht
  rw [resolveTimestamp_num_eval t htpos] at hres
  by_cases hlt : t < 1000000000000
  · rw [if_pos hlt] at hres
    by_cases hb : (jsTrunc (t * 1000)).natAbs ≤ 8640000000000000
    · rw [if_pos hb] at hres
      have hq2 : q = t * 1000 := (Option.some.inj hres).symm
      have hqpos : (0 : ℚ) < q := by rw [hq2]; positivity
      rw [resolveTimestamp_num_eval q hqpos]
      have hqge : ¬ q < 1000000000000 := by
        rw [hq2]; push_neg; linarith
      rw [if_neg hqge,
        if_pos (show (jsTrunc q).natAbs ≤ 8640000000000000 by rw [hq2]; exact hb)]
    · rw [if_neg hb] at hres
      cases hres
  · rw [if_neg hlt] at hres
    by_cases hb : (jsTrunc t).natAbs ≤ 8640000000000000
    · rw [if_pos hb] at hres
      have hq2 : q = t := (Option.some.inj hres).symm
      subst hq2
      rw [resolveTimestamp_num_eval q htpos, if_neg hlt, if_pos hb]
    · rw [if_neg hb] at hres
      cases hres

/-- Witness for the amended claim C2 at the concrete input 1e12. -/
theorem resolveTimestamp_idempotent_witness :
    resolveTimestamp (some (JSNum.num 1000000000000)) none =
      some 1000000000000 := by
  have h := resolveTimestamp_eval_nat 1000000000000 1000000000000 (by norm_num)
    (Or.inr (by norm_num)) (by norm_num)
  push_cast at h
  exact resolveTimestamp_idempotent_of_ge_1e9 1000000000000 1000000000000
    (by norm_num) h

/-- Claim C3: for every attempt number n of at least 1, the rate limit handler
computes a delay equal to min(60000 * 2 ^ (n - 1) * (1 + j), 900000)
milliseconds for some jitter factor j between 0 and one tenth, an attempt
whose raw exponential delay reaches the 15 minute cap is clamped to the cap,
and the invocation increments the lifetime rate limit hit counter by exactly
one. -/
theorem handleRateLimit_delay_spec (n : ℕ) (rand : ℚ) (stats : Stats)
    (hn : 1 ≤ n) (h0 : 0 ≤ rand) (h1 : rand < 1) :
    ∃ j : ℚ, 0 ≤ j ∧ j ≤ 1 / 10 ∧
      (handleRateLimit n rand stats).2 =
        min (60000 * 2 ^ (n - 1) * (1 + j)) 900000 ∧
      (900000 ≤ (60000 : ℚ) * 2 ^ (n - 1) →
        (handleRateLimit n rand stats).2 = 900000) ∧
      (handleRateLimit n rand stats).1.rateLimitHits = stats.rateLimitHits + 1 := by
  have hA : (60000 : ℚ) * 2 ^ (n - 1) + rand * (1 / 10) * (60000 * 2 ^ (n - 1)) =
      60000 * 2 ^ (n - 1) * (1 + rand / 10) := by ring
  refine ⟨rand / 10, by positivity, by linarith, ?_, ?_, rfl⟩
  · show min ((60000 : ℚ) * 2 ^ (n - 1) + rand * (1 / 10) * (60000 * 2 ^ (n - 1)))
        (15 * 60 * 1000) = min (60000 * 2 ^ (n - 1) * (1 + rand / 10)) 900000
    rw [hA]; norm_num
  · intro hcap
    show min ((60000 : ℚ) * 2 ^ (n - 1) + rand * (1 / 10) * (60000 * 2 ^ (n - 1)))
        (15 * 60 * 1000) = 900000
    have hbig : (15 * 60 * 1000 : ℚ) ≤
        60000 * 2 ^ (n - 1) + rand * (1 / 10) * (60000 * 2 ^ (n - 1)) := by
      have hpow : (0 : ℚ) ≤ 60000 * 2 ^ (n - 1) := by positivity
      nlinarith
    rw [min_eq_right hbig]; norm_num

/-- Witness for claim C3 at attempt 5, where the raw exponential delay 960000
exceeds the 15 minute cap. -/
theorem handleRateLimit_delay_spec_witness :
    ∃ j : ℚ, 0 ≤ j ∧ j ≤ 1 / 10 ∧
      (handleRateLimit 5 (1 / 2) initStats).2 =
        min (60000 * 2 ^ (5 - 1) * (1 + j)) 900000 ∧
      (900000 ≤ (60000 : ℚ) * 2 ^ (5 - 1) →
        (handleRateLimit 5 (1 / 2) initStats).2 = 900000) ∧
      (handleRateLimit 5 (1 / 2) initStats).1.rateLimitHits =
        initStats.rateLimitHits + 1 :=
  handleRateLimit_delay_spec 5 (1 / 2) initStats (by norm_num) (by norm_num)
    (by norm_num)

/-- Claim C8: on an empty tweet list the analytics computation returns the
defined zero state with totalTweets 0, averageLikes the string 0.00 and the
time range bounds both the string N/A, rather than a runtime failure. -/
theorem generateAnalytics_empty_zero_state :
    (generateAnalytics []).totalTweets = 0 ∧
    (generateAnalytics []).engagement.averageLikes = "0.00" ∧
    (generateAnalytics []).timeRange.start = "N/A" ∧
    (generateAnalytics []).timeRange.«end» = "N/A" :=
  ⟨rfl, rfl, rfl, rfl⟩

/-- A bad record is rejected by the normalizer. -/
theorem processTweetData_of_badRecord (s : String) (r : RawTweet)
    (h : badRecord r) : processTweetData s (some r) = none := by
  rcases h with h1 | ⟨h2, h3⟩ | ⟨v, hv, hbad⟩
  · simp [processTweetData, h1]
  · have hres : resolveTimestamp r.timestamp r.timeParsedMs = none := by
      simp [resolveTimestamp, substitutedTimestamp, h2, h3, jsFalsyNum]
    simp [processTweetData, hres]
  · have hres : resolveTimestamp r.timestamp r.timeParsedMs = none := by
      by_cases hf : jsFalsyNum (substitutedTimestamp r.timestamp r.timeParsedMs)
      · simp [resolveTimestamp, hf]
      · have hcond : (jsIsNaN (scaleTimestamp v) || jsLeZero (scaleTimestamp v))
            = true := by
          rcases hbad with hb | hb <;> simp [hb]
        simp [resolveTimestamp, hv, hf, hcond]
    simp [processTweetData, hres]

/-- Membership in the values of a map after one `Map.set`. -/
theorem mem_values_jsMapSet (m : List (String × Tweet)) (k : String) (v t : Tweet)
    (h : t ∈ jsMapValues (jsMapSet m k v)) : t ∈ jsMapValues m ∨ t = v := by
  induction m with
  | nil =>
    simp [jsMapSet, jsMapValues] at h
    exact Or.inr h
  | cons p m ih =>
    obtain ⟨k0, v0⟩ := p
    by_cases he : k0 = k
    · simp only [jsMapSet, if_pos he, jsMapValues, List.map_cons, List.mem_cons] at h ⊢
      rcases h with h | h
      · exact Or.inr h
      · exact Or.inl (Or.inr h)
    · simp only [jsMapSet, if_neg he, jsMapValues, List.map_cons, List.mem_cons] at h ⊢
      rcases h with h | h
      · exact Or.inl (Or.inl h)
      · rcases ih h with h2 | h2
        · exact Or.inl (Or.inr h2)
        · exact Or.inr h2

/-- Every value present after one collection step was present before or is the
normalization of the consumed raw record. -/
theorem mem_values_collectStep (s : String) (dr : Option (Int × Int))
    (m : List (String × Tweet)) (raw : Option RawTweet) (t : Tweet)
    (h : t ∈ jsMapValues (collectStep s dr m raw)) :
    t ∈ jsMapValues m ∨ processTweetData s raw = some t := by
  cases raw with
  | none => exact Or.inl h
  | some tweet =>
    by_cases hpres : rawIdPresent m tweet.id
    · rw [collectStep, if_pos hpres] at h
      exact Or.inl h
    · cases hproc : processTweetData s (some tweet) with
      | none =>
        simp only [collectStep, hproc, if_neg hpres] at h
        exact Or.inl h
      | some pt =>
        cases dr with
        | none =>
          simp only [collectStep, hproc, if_neg hpres] at h
          rcases mem_values_jsMapSet m pt.id pt t h with h3 | h3
          · exact Or.inl h3
          · exact Or.inr (by rw [h3])
        | some se =>
          obtain ⟨s1, e1⟩ := se
          simp only [collectStep, hproc, if_neg hpres] at h
          by_cases hr : s1 ≤ jsTrunc (pt.timestamp.getD 0) ∧
              jsTrunc (pt.timestamp.getD 0) ≤ e1
          · rw [if_pos hr] at h
            rcases mem_values_jsMapSet m pt.id pt t h with h3 | h3
            · exact Or.inl h3
            · exact Or.inr (by rw [h3])
          · rw [if_neg hr] at h
            exact Or.inl h

/-- Every value collected over a raw sequence was present initially or is the
normalization of some consumed raw record. -/
theorem mem_values_collect_foldl (s : String) (dr : Option (Int × Int)) :
    ∀ (raws : List (Option RawTweet)) (m : List (String × Tweet)) (t : Tweet),
      t ∈ jsMapValues (raws.foldl (collectStep s dr) m) →
      t ∈ jsMapValues m ∨ ∃ r ∈ raws, processTweetData s r = some t := by
  intro raws
  induction raws with
  | nil =>
    intro m t h
    exact Or.inl h
  | cons r rest ih =>
    intro m t h
    rcases ih (collectStep s dr m r) t h with h1 | ⟨r2, hr2, hp⟩
    · rcases mem_values_collectStep s dr m r t h1 with h2 | h2
      · exact Or.inl h2
      · exact Or.inr ⟨r, List.mem_cons_self r rest, h2⟩
    · exact Or.inr ⟨r2, List.mem_cons_of_mem r hr2, hp⟩

/-- Claim C1: a raw record without identifier, with no timestamp field of
either kind, or whose resolved timestamp is NaN or non positive after the
seconds to milliseconds scaling is rejected by the normalizer
(processTweetData returns null), and every tweet in the collection produced
by the primary loop is the image of an accepted raw record, so a rejected
record is never inserted into the dedup map and never appears in any
persisted dataset. -/
theorem processTweetData_rejects_never_persisted (s : String) (r : RawTweet)
    (h : badRecord r) :
    processTweetData s (some r) = none ∧
    ∀ (dr : Option (Int × Int)) (raws : List (Option RawTweet)) (t : Tweet),
      t ∈ collectTweets s dr raws →
      ∃ r2 ∈ raws, processTweetData s r2 = some t := by
  refine ⟨processTweetData_of_badRecord s r h, ?_⟩
  intro dr raws t hmem
  rcases mem_values_collect_foldl s dr raws [] t hmem with h1 | h2
  · simp [jsMapValues] at h1
  · exact h2

/-- Witness for claim C1 at the record with every field absent. -/
theorem processTweetData_rejects_witness :
    processTweetData ("user") (some emptyRaw) = none :=
  (processTweetData_rejects_never_persisted ("user") emptyRaw
    (Or.inl (by rfl))).1

/-- Claim C4 evidence: the primary collection loop has no stagnation exit. In a
run whose first three raw records each yield zero newly accepted tweets
(every one rejected for lack of an identifier), a fourth valid record is
still consumed and collected; the loop only stops when the sequence is
exhausted, while the stagnation counters declared before the loop are never
read. -/
theorem collectTweets_ignores_stagnation :
    (collectTweets ("self") none
      [some emptyRaw, some emptyRaw, some emptyRaw, some freshRaw]).map Tweet.id
      = ["42"] := by decide

/-- Claim C5 evidence: two scrape cycles seeing the same visible post store it
twice. The guard asks the Set of scraped objects for the id string, which
never matches an object, so every scrape adds a fresh record and the
accumulating collection holds one record per scrape instead of at most one
per id. -/
theorem fallback_set_duplicates_id :
    ((storedFallbackTweets (collectWithFallback
      [[visiblePost], [visiblePost]])).filter (fun t => t.id == some "1")).length
      = 2 := by decide

/-- Claim C9 evidence: with the merge prompt answered to exclude retweets, the
wiring passes the negated flag into the merge, the retweet filter is
disabled, and a retweet is selected into the merged character. -/
theorem mergeMain_excludeRetweets_keeps_retweet :
    excludeAnswers.excludeRetweets = true ∧
    topRetweet.isRetweet = true ∧
    jsMapGet (createMergedCharacter [[topRetweet]]
      (mergeOptionsOfAnswers excludeAnswers)) ("9") = some topRetweet := by decide

/-- Claim C6, counterexample: in the capped ranked merge the first occurrence
does not win. Two accounts contribute distinct tweets with the same id and
the merged map holds the tweet of the later account. -/
theorem createMergedCharacter_first_wins_false :
    jsMapGet (createMergedCharacter [[tweetA], [tweetB]] defaultMergeOptions) ("1")
      = some tweetB ∧ tweetB ≠ tweetA := by decide

/-- Lookup after a JS Map.set: the new binding shadows exactly its key. -/
theorem jsMapGet_jsMapSet (m : List (String × Tweet)) (k0 k : String) (v : Tweet) :
    jsMapGet (jsMapSet m k0 v) k = if k0 = k then some v else jsMapGet m k := by
  induction m with
  | nil =>
    by_cases h : k0 = k
    · subst h
      simp [jsMapSet, jsMapGet, List.find?]
    · have hb : (k0 == k) = false := beq_eq_false_iff_ne.mpr h
      simp [jsMapSet, jsMapGet, List.find?, hb, h]
  | cons p m ih =>
    obtain ⟨k1, v1⟩ := p
    by_cases h1 : k1 = k0
    · subst h1
      by_cases h : k1 = k
      · subst h
        simp [jsMapSet, jsMapGet, List.find?]
      · have hb : (k1 == k) = false := beq_eq_false_iff_ne.mpr h
        simp [jsMapSet, jsMapGet, List.find?, hb, h]
    · by_cases h : k1 = k
      · subst h
        have hk0 : ¬ k0 = k1 := fun he => h1 he.symm
        simp [jsMapSet, jsMapGet, List.find?, if_neg h1, hk0]
      · have hb : (k1 == k) = false := beq_eq_false_iff_ne.mpr h
        simp only [jsMapSet, if_neg h1]
        simp only [jsMapGet, List.find?] at ih ⊢
        simp [hb, ih]

/-- Lookup after unioning one selected list into the map: the last occurrence
of the key in the list wins, else the previous binding shows through. -/
theorem jsMapGet_mergeIntoMap (sel : List Tweet) (m : List (String × Tweet))
    (k : String) :
    jsMapGet (mergeIntoMap m sel) k =
      (sel.reverse.find? (fun t => t.id == k)).or (jsMapGet m k) := by
  induction sel generalizing m with
  | nil => simp [mergeIntoMap]
  | cons t sel ih =>
    have step : mergeIntoMap m (t :: sel) = mergeIntoMap (jsMapSet m t.id t) sel := rfl
    rw [step, ih, List.reverse_cons, List.find?_append, Option.or_assoc]
    congr 1
    rw [jsMapGet_jsMapSet]
    by_cases h : t.id = k
    · have hb : (t.id == k) = true := beq_iff_eq.mpr h
      simp [List.find?, h, hb, Option.or]
    · have hb : (t.id == k) = false := beq_eq_false_iff_ne.mpr h
      simp [List.find?, h, hb, Option.or]

/-- Claim C6, amended: in the capped ranked merge the union across source
accounts is deduplicated by id with the LAST occurrence winning: accounts
are processed in input order, and the unconditional Map.set lets a later
account replace an earlier tweet carrying the same id. The merged binding of
every id is the last selected tweet with that id. -/
theorem createMergedCharacter_last_occurrence_wins (accounts : List (List Tweet))
    (opts : MergeOptions) (k : String) :
    jsMapGet (createMergedCharacter accounts opts) k =
      ((accounts.map (selectTopTweets opts)).flatten.reverse.find?
        (fun t => t.id == k)) := by
  suffices h : ∀ m : List (String × Tweet),
      jsMapGet (accounts.foldl
        (fun m acc => mergeIntoMap m (selectTopTweets opts acc)) m) k =
      (((accounts.map (selectTopTweets opts)).flatten.reverse.find?
        (fun t => t.id == k)).or (jsMapGet m k)) by
    have h2 := h []
    simpa [createMergedCharacter, jsMapGet] using h2
  induction accounts with
  | nil =>
    intro m
    simp
  | cons acc rest ih =>
    intro m
    simp only [List.foldl_cons, List.map_cons, List.flatten_cons]
    rw [ih, jsMapGet_mergeIntoMap, List.reverse_append, List.find?_append,
      Option.or_assoc]

/-- Length of each per account selection is at most the cap. -/
theorem selectTopTweets_length_le (opts : MergeOptions) (a : List Tweet) :
    (selectTopTweets opts a).length ≤ opts.tweetsPerAccount := by
  simpa [selectTopTweets] using
    List.length_take_le opts.tweetsPerAccount
      (List.insertionSort
        (fun x y : Tweet => rankKey opts.sortBy y ≤ rankKey opts.sortBy x)
        (eligibleTweets opts a))

/-- Each per account selection is sorted non increasingly in the rank key. -/
theorem selectTopTweets_sorted (opts : MergeOptions) (a : List Tweet) :
    List.Sorted (fun x y : Tweet => rankKey opts.sortBy y ≤ rankKey opts.sortBy x)
      (selectTopTweets opts a) := by
  letI : IsTotal Tweet
      (fun x y : Tweet => rankKey opts.sortBy y ≤ rankKey opts.sortBy x) :=
    ⟨fun _ _ => le_total _ _⟩
  letI : IsTrans Tweet
      (fun x y : Tweet => rankKey opts.sortBy y ≤ rankKey opts.sortBy x) :=
    ⟨fun _ _ _ hxy hyz => le_trans hyz hxy⟩
  exact List.Pairwise.sublist (List.take_sublist _ _)
    (List.sorted_insertionSort _ _)

/-- Total size of all selections is bounded by accounts times cap. -/
theorem sum_selectTopTweets_le (accounts : List (List Tweet)) (opts : MergeOptions) :
    ((accounts.map (selectTopTweets opts)).map List.length).sum ≤
      accounts.length * opts.tweetsPerAccount := by
  induction accounts with
  | nil => simp
  | cons a rest ih =>
    simp only [List.map_cons, List.sum_cons, List.length_cons]
    calc (selectTopTweets opts a).length +
          ((rest.map (selectTopTweets opts)).map List.length).sum
        ≤ opts.tweetsPerAccount + rest.length * opts.tweetsPerAccount :=
          Nat.add_le_add (selectTopTweets_length_le opts a) ih
      _ = (rest.length + 1) * opts.tweetsPerAccount := by ring

/-- Claim C7: for every merge over accounts each holding at least cap many
eligible tweets, the number of tweets selected across all accounts before
deduplication is at most the number of accounts times the cap, and each
account selection is in non increasing order of the chosen rank key. -/
theorem createMerged_cap_and_ranking (accounts : List (List Tweet))
    (opts : MergeOptions)
    (hk : ∀ a ∈ accounts, opts.tweetsPerAccount ≤ (eligibleTweets opts a).length) :
    ((accounts.map (selectTopTweets opts)).map List.length).sum ≤
      accounts.length * opts.tweetsPerAccount ∧
    ∀ a ∈ accounts,
      List.Sorted (fun x y : Tweet => rankKey opts.sortBy y ≤ rankKey opts.sortBy x)
        (selectTopTweets opts a) :=
  ⟨sum_selectTopTweets_le accounts opts, fun a _ => selectTopTweets_sorted opts a⟩

/-- Witness for claim C7 on one account with one eligible tweet and cap one. -/
theorem createMerged_cap_and_ranking_witness :
    (([[tweetA]].map (selectTopTweets capOneOptions)).map List.length).sum ≤
      ([[tweetA]] : List (List Tweet)).length * capOneOptions.tweetsPerAccount ∧
    ∀ a ∈ ([[tweetA]] : List (List Tweet)),
      List.Sorted (fun x y : Tweet => rankKey capOneOptions.sortBy y ≤
        rankKey capOneOptions.sortBy x) (selectTopTweets capOneOptions a) :=
  createMerged_cap_and_ranking [[tweetA]] capOneOptions (by decide)

/-- Claim C10: on a non empty list whose tweets are all retweets, the analytics
average of likes is the string NaN: the engagement divisor is the count of
non retweet tweets, zero here, and only the empty list is special cased. -/
theorem generateAnalytics_all_retweets_averageLikes (tweets : List Tweet)
    (hne : tweets ≠ []) (hall : ∀ t ∈ tweets, t.isRetweet = true) :
    (generateAnalytics tweets).engagement.averageLikes = "NaN" := by
  have hlen : ¬ tweets.length = 0 := by
    simpa [List.length_eq_zero] using hne
  have hfil : tweets.filter (fun t => !t.isRetweet) = [] := by
    rw [List.filter_eq_nil_iff]
    intro a ha
    simp [hall a ha]
  simp only [generateAnalytics, if_neg hlen]
  simp [hfil, jsDiv, toFixed2]

/-- Witness for claim C10 on a one element list holding a retweet. -/
theorem generateAnalytics_all_retweets_witness :
    (generateAnalytics [topRetweet]).engagement.averageLikes = "NaN" :=
  generateAnalytics_all_retweets_averageLikes [topRetweet] (by decide) (by decide)
